import Mathlib

/-!
# Verification of the dnd5e dice-roll configuration and enrichment core

Shallow embedding of the rule-resolution core of the `foundryvtt-dnd5e`
repository: the d20 and damage roll configuration helpers (`d20Roll`,
`damageRoll`, `_determineAdvantageMode`, `_determineCriticalMode`), the
text enrichers (`enrichCheck`, `enrichSave`, `enrichDamage`), the base
`Advancement` update computations, and the `ProficiencyCycleElement`
value-stepping control.  Each definition is translated from the
corresponding JavaScript source function; theorems at the end of the file
settle the specification claims.
-/

namespace Dnd5e

/-! ## Dice roll configuration (module/dice.js)

`_areKeysPressed(event, action)` consults the host keybinding registry and
keyboard state, which are external collaborators.  We therefore model a
triggering event by the three booleans `_areKeysPressed` would return for
the three fast-forward actions; an absent event makes all three `false`,
exactly as in the source (`event ? _areKeysPressed(event, ...) : false`). -/

/-- The keybinding outcomes for a d20 roll's triggering event: whether the
held modifier keys satisfy the `d20RollFastForwardNormal` /
`...Advantage` / `...Disadvantage` bindings. -/
structure D20Event where
  ffNormal : Bool
  ffAdvantage : Bool
  ffDisadvantage : Bool
deriving DecidableEq, Repr

/-- The keybinding outcomes for a damage roll's triggering event: whether
the held modifier keys satisfy the `damageRollFastForwardNormal` /
`...Critical` bindings. -/
structure DamageEvent where
  ffNormal : Bool
  ffCritical : Bool
deriving DecidableEq, Repr

/-- `CONFIG.Dice.D20Roll.ADV_MODE`: the advantage mode enumeration. -/
inductive AdvMode where
  | normal
  | advantage
  | disadvantage
deriving DecidableEq, Repr

/-- Embedding of `_determineAdvantageMode({event, advantage=false,
disadvantage=false, fastForward})`.  Returns `(isFF, advantageMode)`.
The `keys` record holds the three `_areKeysPressed` results (`false`
throughout when no event was supplied); `isFF` is the explicit
`fastForward` flag when given, otherwise whether any of the three
bindings matched; the mode defaults to `NORMAL`, is set to `ADVANTAGE`
when `advantage || keys.advantage`, and otherwise to `DISADVANTAGE` when
`disadvantage || keys.disadvantage` (an `else if` in the source). -/
def determineAdvantageMode (event : Option D20Event)
    (advantage disadvantage : Bool) (fastForward : Option Bool) :
    Bool × AdvMode :=
  let keys : D20Event :=
    { ffNormal := (event.map (·.ffNormal)).getD false
      ffAdvantage := (event.map (·.ffAdvantage)).getD false
      ffDisadvantage := (event.map (·.ffDisadvantage)).getD false }
  let isFF := fastForward.getD (keys.ffNormal || keys.ffAdvantage || keys.ffDisadvantage)
  let advantageMode : AdvMode :=
    if advantage || keys.ffAdvantage then .advantage
    else if disadvantage || keys.ffDisadvantage then .disadvantage
    else .normal
  (isFF, advantageMode)

/-- Embedding of `_determineCriticalMode({event, critical=false,
fastForward})`.  Returns `(isFF, isCritical)`: `isFF` is the explicit
`fastForward` flag when given, otherwise whether either damage-roll
binding matched, and `critical` is forced to `true` when the critical
fast-forward binding matched (`if (keys.critical) critical = true`). -/
def determineCriticalMode (event : Option DamageEvent)
    (critical : Bool) (fastForward : Option Bool) : Bool × Bool :=
  let keys : DamageEvent :=
    { ffNormal := (event.map (·.ffNormal)).getD false
      ffCritical := (event.map (·.ffCritical)).getD false }
  let isFF := fastForward.getD (keys.ffNormal || keys.ffCritical)
  let isCritical := if keys.ffCritical then true else critical
  (isFF, isCritical)

/-! ### The `d20Roll` / `damageRoll` workflows

Both helpers construct a roll object, optionally present a configuration
dialog (an external collaborator), and on confirmation evaluate the roll
and post a chat message.  The dialog's outcome is an input to the
embedding: `none` models a dismissed dialog (`configureDialog` resolved
to `null`), `some cfg` a confirmed configuration.  The outcome type
separates a cancelled workflow (the early `return null`, reached before
`roll.evaluate` and `roll.toMessage`) from an evaluated roll. -/

/-- The options baked into the constructed `D20Roll` instance that are
relevant to configuration claims. -/
structure D20RollState where
  formula : String
  advantageMode : AdvMode
deriving DecidableEq, Repr

/-- The options baked into the constructed `DamageRoll` instance that are
relevant to configuration claims. -/
structure DamageRollState where
  formula : String
  critical : Bool
deriving DecidableEq, Repr

/-- Result of a roll workflow: either the early `return null` taken when
the configuration dialog is dismissed (no evaluation, no chat message),
or an evaluated roll together with whether a chat message was created. -/
inductive RollOutcome (α : Type) where
  | cancelled
  | evaluated (roll : α) (messageCreated : Bool)
deriving DecidableEq, Repr

/-- Embedding of the `d20Roll` workflow.  The formula is
`["1d20"].concat(parts).join(" + ")`; the advantage mode and fast-forward
flag come from `_determineAdvantageMode`; when not fast-forwarded the
dialog result decides: `null` yields the cancelled outcome before any
evaluation, a confirmed configuration may override the advantage mode
(the dialog buttons choose the action).  After evaluation a chat message
is created exactly when `chatMessage` is set. -/
def d20Roll (parts : List String) (event : Option D20Event)
    (advantage disadvantage : Bool) (fastForward : Option Bool)
    (chatMessage : Bool) (dialogResult : Option AdvMode) :
    RollOutcome D20RollState :=
  let formula := String.intercalate " + " ("1d20" :: parts)
  let ff := determineAdvantageMode event advantage disadvantage fastForward
  let roll : D20RollState := { formula, advantageMode := ff.2 }
  if ff.1 then .evaluated roll chatMessage
  else
    match dialogResult with
    | none => .cancelled
    | some mode => .evaluated { roll with advantageMode := mode } chatMessage

/-- Embedding of the `damageRoll` workflow.  The formula is
`parts.join(" + ")`; `_determineCriticalMode` yields `(isFF,
isCritical)`; the constructed roll's `critical` option is
`isFF ? isCritical : false`.  Note that `allowCritical` is only handed to
the configuration dialog (an external collaborator) and is never
consulted on the fast-forward path.  When not fast-forwarded the dialog
result decides: `null` yields the cancelled outcome before any
evaluation, a confirmed configuration chooses the critical flag. -/
def damageRoll (parts : List String) (event : Option DamageEvent)
    (allowCritical critical : Bool) (fastForward : Option Bool)
    (chatMessage : Bool) (dialogResult : Option Bool) :
    RollOutcome DamageRollState :=
  let formula := String.intercalate " + " parts
  let cm := determineCriticalMode event critical fastForward
  let roll : DamageRollState :=
    { formula, critical := if cm.1 then cm.2 else false }
  if cm.1 then .evaluated roll chatMessage
  else
    match dialogResult with
    | none => .cancelled
    | some crit => .evaluated { roll with critical := crit } chatMessage

/-! ## Text enrichers (module/enrichers.mjs)

`enrichCheck`, `enrichSave` and `enrichDamage` resolve bracket-link
configurations against the `CONFIG.DND5E.enrichmentLookup` tables and
either return an HTML roll link or, on a failed lookup, log a console
warning and return the original matched input unchanged.  The lookup
tables are modelled as association lists; `Trait.getBaseItem` (which
resolves a tool UUID against compendium content) is an external
collaborator passed as a function argument.  Label/icon formatting and
the passive-tag variant are presentation only and are not modelled; the
embedding returns the resolved link data or the unchanged input,
together with the number of `console.warn` calls made. -/

/-- An entry of `enrichmentLookup.abilities`: entries may carry a `key`
remapping an alias to the canonical ability key. -/
structure AbilityEntry where
  key : Option String
deriving DecidableEq, Repr

/-- An entry of `enrichmentLookup.skills`: the skill's configured default
ability and an optional canonical-key remapping. -/
structure SkillEntry where
  ability : String
  key : Option String
deriving DecidableEq, Repr

/-- The `CONFIG.DND5E.enrichmentLookup` tables consulted by the
enrichers: abilities, skills, and tools (tool key to base-item UUID). -/
structure EnrichmentLookup where
  abilities : List (String × AbilityEntry)
  skills : List (String × SkillEntry)
  tools : List (String × String)
deriving Repr

/-- Outcome of a check/save enrichment: either the original matched
input returned unchanged (after a logged warning), or the data of the
produced roll link (`createRollLink`): its `data-type` together with the
resolved ability/skill/tool keys. -/
inductive EnrichResult where
  | unchanged (input : String)
  | rollLink (linkType : String) (ability skill tool : Option String)
deriving DecidableEq, Repr

/-- An enrichment result paired with the number of `console.warn` calls
the enricher performed. -/
structure EnrichOutput where
  result : EnrichResult
  warnings : Nat
deriving DecidableEq, Repr

/-- Embedding of the resolution logic of `enrichCheck(config, label,
options)` for a configuration carrying the optional `ability`, `skill`
and `tool` keys (the bare-value classification loop and `dc` parsing act
before/independently of this resolution).  Mirrors the source flow:
a supplied skill absent from the skills table warns and marks the
enrichment invalid, otherwise a missing explicit ability defaults to the
skill's configured ability; a supplied tool that does not resolve to a
base item warns and marks invalid; a missing or unknown ability warns
and marks invalid; canonical `key` remappings are applied.  When invalid
the original matched input is returned unchanged, otherwise a roll link
of type `skill`/`tool`/`check` is produced. -/
def enrichCheck (lookup : EnrichmentLookup) (getBaseItem : String → Option String)
    (input : String) (ability skill tool : Option String) : EnrichOutput :=
  let skillConfig := skill.bind fun s => lookup.skills.lookup s
  let skillInvalid := skill.isSome && skillConfig.isNone
  let ability1 : Option String :=
    match skill, skillConfig, ability with
    | some _, some sc, none => some sc.ability
    | _, _, a => a
  let skill1 : Option String :=
    match skillConfig with
    | some sc => match sc.key with | some k => some k | none => skill
    | none => skill
  let toolUUID := tool.bind fun t => lookup.tools.lookup t
  let toolIndex := toolUUID.bind getBaseItem
  let toolInvalid := tool.isSome && toolIndex.isNone
  let abilityConfig := ability1.bind fun a => lookup.abilities.lookup a
  let abilityInvalid := abilityConfig.isNone
  let ability2 : Option String :=
    match abilityConfig with
    | some ac => match ac.key with | some k => some k | none => ability1
    | none => ability1
  let warnings := (if skillInvalid then 1 else 0) + (if toolInvalid then 1 else 0)
    + (if abilityInvalid then 1 else 0)
  if skillInvalid || toolInvalid || abilityInvalid then
    { result := .unchanged input, warnings }
  else
    let linkType := if skill1.isSome then "skill" else if tool.isSome then "tool" else "check"
    { result := .rollLink linkType ability2 skill1 tool, warnings }

/-- Embedding of the resolution logic of `enrichSave(config, label,
options)` for a configuration carrying the optional `ability` key: an
ability absent from the abilities table warns and returns the original
matched input unchanged, otherwise a `save` roll link is produced with
the canonical `key` remapping applied. -/
def enrichSave (lookup : EnrichmentLookup) (input : String)
    (ability : Option String) : EnrichOutput :=
  let abilityConfig := ability.bind fun a => lookup.abilities.lookup a
  match abilityConfig with
  | none => { result := .unchanged input, warnings := 1 }
  | some ac =>
    let ability1 := match ac.key with | some k => some k | none => ability
    { result := .rollLink "save" ability1 none none, warnings := 0 }

/-- The `average` configuration value of a damage enrichment after
`parseConfig`: absent, the boolean flag `average=true`, or a numeric
manual override `average=<n>`. -/
inductive AverageOption where
  | off
  | flag
  | num (n : Int)
deriving DecidableEq, Repr

/-- A simple dice formula `<count>d<faces>`, the shape the average
computation claim exercises (e.g. `2d6`). -/
structure DiceFormula where
  count : Nat
  faces : Nat
deriving DecidableEq, Repr

/-- Total of `Roll.create(formula).evaluate({minimize: true})` for a
simple dice formula: every die shows its minimum face `1`.  Models the
external dice library's minimized evaluation. -/
def minimizedTotal (f : DiceFormula) : Nat :=
  f.count

/-- Total of `Roll.create(formula).evaluate({maximize: true})` for a
simple dice formula: every die shows its maximum face.  Models the
external dice library's maximized evaluation. -/
def maximizedTotal (f : DiceFormula) : Nat :=
  f.count * f.faces

/-- Embedding of the average-display branch of `enrichDamage`: the whole
block is guarded by the truthiness check `if ( config.average )`, so the
numeric override `0` (falsy) displays no average at all.  Inside the
block, `average === true` displays
`Math.floor((minRoll.total + maxRoll.total) / 2)`, obtained from two
formula evaluations, and a (nonzero, hence truthy) numeric `average` is
displayed verbatim with no evaluation.  Returns the displayed average
(if any) and the number of formula evaluations performed. -/
def enrichDamageAverage (f : DiceFormula) (average : AverageOption) :
    Option Int × Nat :=
  match average with
  | .off => (none, 0)
  | .flag => (some (((minimizedTotal f + maximizedTotal f) / 2 : Nat) : Int), 2)
  | .num n => if n = 0 then (none, 0) else (some n, 0)

/-- Modelled from the spec: the values of the
`CONFIG.DND5E.enrichmentLookup` tables are rules data not present in the
source slice; the spec's example records that the skill key `"acr"`
(Acrobatics) has configured default ability `"dex"`.  A minimal table
with the six standard abilities and that skill entry. -/
def dnd5eLookup : EnrichmentLookup :=
  { abilities :=
      [("str", ⟨none⟩), ("dex", ⟨none⟩), ("con", ⟨none⟩),
       ("int", ⟨none⟩), ("wis", ⟨none⟩), ("cha", ⟨none⟩)]
    skills := [("acr", ⟨"dex", none⟩)]
    tools := [] }

/-! ## Advancement (module/advancement/advancement.js)

The abstract `Advancement` base class carries the update computations
consumed by the advancement manager.  In this source slice the base
class provides the concrete implementations: `propertyUpdates` returns
the empty actor-update object `{}` and `itemUpdates` returns
`{add: [], remove: []}`, for any level and for both directions, and
`AdvancementFlow.reverseUpdate` returns the empty value update `{}`.
Actor property updates are modelled as association lists of
property-path/value pairs merged into the character state, and item
updates as UUID lists added to / removed from the owned-item list. -/

/-- An actor-property update object: property paths mapped to new
integer values (the shape `propertyUpdates` produces). -/
def PropertyUpdates := List (String × Int)

/-- Item updates produced by `Advancement#itemUpdates`: UUIDs of items
to add to the actor and IDs of items to remove. -/
structure ItemUpdates where
  add : List String
  remove : List String
deriving DecidableEq, Repr

/-- The slice of character state an advancement can touch: actor
properties and the list of owned-item UUIDs. -/
structure CharacterState where
  properties : List (String × Int)
  items : List String
deriving DecidableEq, Repr

/-- Embedding of `Advancement#propertyUpdates({level, updates,
reverse})`: the base implementation returns the empty update object for
every level and direction. -/
def Advancement.propertyUpdates (level : Nat) (reverse : Bool) : PropertyUpdates :=
  []

/-- Embedding of `Advancement#itemUpdates({level, updates, reverse})`:
the base implementation returns `{add: [], remove: []}` for every level
and direction. -/
def Advancement.itemUpdates (level : Nat) (reverse : Bool) : ItemUpdates :=
  { add := [], remove := [] }

/-- Embedding of `AdvancementFlow#reverseUpdate()`: the base
implementation returns the empty value-update object. -/
def AdvancementFlow.reverseUpdate : PropertyUpdates :=
  []

/-- Apply an actor-property update object to a character state: each
listed property path is set to its new value (the document store's
partial-field update). -/
def applyProperties (s : CharacterState) (u : PropertyUpdates) : CharacterState :=
  { s with properties := u.foldl (fun ps kv =>
      (ps.filter (·.1 ≠ kv.1)) ++ [kv]) s.properties }

/-- Apply item updates to a character state: removals are taken out of
the owned-item list and additions appended. -/
def applyItems (s : CharacterState) (u : ItemUpdates) : CharacterState :=
  { s with items := (s.items.filter (fun i => ¬ u.remove.contains i)) ++ u.add }

/-- One direction of the advancement manager's work for the base
`Advancement` at a level: apply the property updates and the item
updates computed for that direction. -/
def Advancement.applyAt (s : CharacterState) (level : Nat) (reverse : Bool) :
    CharacterState :=
  applyItems (applyProperties s (Advancement.propertyUpdates level reverse))
    (Advancement.itemUpdates level reverse)

/-! ## ProficiencyCycleElement (module/applications/components/proficiency-cycle.mjs)

The custom element cycles a proficiency value through the valid value
list for its type.  Values include the half-proficiency multiplier
`0.5`, so they are modelled as rationals. -/

/-- The `type` attribute of a `ProficiencyCycleElement`. -/
inductive ProfType where
  | ability
  | skill
deriving DecidableEq, Repr

/-- Embedding of the `validValues` getter: `[0, 1]` for type `ability`
and `[0, 1, 0.5, 2]` for type `skill`. -/
def validValues : ProfType → List ℚ
  | .ability => [0, 1]
  | .skill => [0, 1, 1/2, 2]

/-- Embedding of `ProficiencyCycleElement#step(up)`: look up the index
of the current value in `validValues` and move to
`levels[(idx + (up ? 1 : levels.length - 1)) % levels.length]`, wrapping
around at either end. -/
def step (t : ProfType) (value : ℚ) (up : Bool) : ℚ :=
  let levels := validValues t
  let idx := levels.indexOf value
  levels.getD ((idx + (if up then 1 else levels.length - 1)) % levels.length) 0

/-! ## Claim theorems -/

/-- C1: for every advancement node (in this source slice, the base
`Advancement` implementation) and every level, applying the advancement
and then immediately reversing it at the same level restores the
pre-apply character state exactly; the value bookkeeping reversal
(`AdvancementFlow#reverseUpdate`) touches nothing, and the items listed
for removal on reverse are exactly those listed for addition on apply. -/
theorem c1_apply_reverse_inverse (s : CharacterState) (level : Nat) :
    Advancement.applyAt (Advancement.applyAt s level false) level true = s
    ∧ applyProperties s AdvancementFlow.reverseUpdate = s
    ∧ (Advancement.itemUpdates level true).remove
        = (Advancement.itemUpdates level false).add := by
  have happ : ∀ (u : CharacterState) (r : Bool), Advancement.applyAt u level r = u := by
    intro u r
    cases u
    simp [Advancement.applyAt, applyItems, applyProperties, Advancement.itemUpdates,
      Advancement.propertyUpdates, List.filter_eq_self]
  exact ⟨by rw [happ, happ], rfl, rfl⟩

/-- C2: with explicit `advantage = true` and `disadvantage = false`, the
advantage mode resolved by `_determineAdvantageMode` is `ADVANTAGE` for
every triggering event (every combination of matched fast-forward
keybindings, including the disadvantage one) and every `fastForward`
flag. -/
theorem c2_explicit_advantage (event : Option D20Event) (fastForward : Option Bool) :
    (determineAdvantageMode event true false fastForward).2 = AdvMode.advantage := by
  simp [determineAdvantageMode]

/-- C3 counterexample: with explicit `disadvantage = true`,
`advantage = false` and the advantage fast-forward keybinding held, the
resolved mode is not `DISADVANTAGE` (the `advantage || keys.advantage`
branch fires first and yields `ADVANTAGE`), refuting the claim that the
explicit argument beats the keybinding. -/
theorem c3_counterexample :
    ¬ (determineAdvantageMode (some ⟨false, true, false⟩) false true none).2
        = AdvMode.disadvantage := by
  decide

/-- C3 amended: with explicit `disadvantage = true` and
`advantage = false`, the resolved mode is `DISADVANTAGE` provided the
advantage fast-forward keybinding is not matched by the triggering
event; when that keybinding is matched, the keybinding beats the
explicit argument and the mode is `ADVANTAGE`. -/
theorem c3_amended (event : Option D20Event) (fastForward : Option Bool)
    (h : (event.map (·.ffAdvantage)).getD false = false) :
    (determineAdvantageMode event false true fastForward).2 = AdvMode.disadvantage := by
  simp [determineAdvantageMode, h]

/-- C3 amended, witness: a concrete run with no triggering event
resolves explicit disadvantage to `DISADVANTAGE`. -/
theorem c3_amended_witness :
    (determineAdvantageMode none false true none).2 = AdvMode.disadvantage :=
  c3_amended none none rfl

/-- C4 counterexample: with both `advantage = true` and
`disadvantage = true` the configuration step does not fail — the total
function `_determineAdvantageMode` returns the resolved mode
`ADVANTAGE`, refuting the claim that an `InvalidConfiguration` error is
raised rather than a resolved mode returned. -/
theorem c4_counterexample :
    (determineAdvantageMode none true true none).2 = AdvMode.advantage := by
  decide

/-- C4 amended: when both advantage and disadvantage are explicitly
requested, `_determineAdvantageMode` does not fail; the `else if` on the
disadvantage check silently prefers advantage and the resolved mode is
`ADVANTAGE`, for every event and `fastForward` flag. -/
theorem c4_amended (event : Option D20Event) (fastForward : Option Bool) :
    (determineAdvantageMode event true true fastForward).2 = AdvMode.advantage := by
  simp [determineAdvantageMode]

/-- C5: evaluation of `damageRoll` at the failing input
`allowCritical = false`, `critical = true`, `fastForward = true`: the
fast-forward path never consults `allowCritical`, so the constructed
`DamageRoll` is marked critical even though criticals were disallowed,
contradicting the documented meaning of `allowCritical` ("Is this
damage roll allowed to be rolled as critical?"). -/
theorem c5_allowCritical_ignored :
    damageRoll ["2d6"] none false true (some true) true none
      = RollOutcome.evaluated ⟨"2d6", true⟩ true := by
  rfl

/-- C6: whenever a `d20Roll` or `damageRoll` is not fast-forwarded and
its configuration dialog is dismissed (resolves to `null`), the workflow
returns the cancelled outcome — no roll is evaluated and no chat message
is created — and that outcome is distinct from every evaluated roll,
including one whose total is 0. -/
theorem c6_cancelled_roll (parts : List String) (e : Option D20Event)
    (adv dis : Bool) (ffd : Option Bool) (chat : Bool)
    (de : Option DamageEvent) (ac cr : Bool) (ffc : Option Bool)
    (h1 : (determineAdvantageMode e adv dis ffd).1 = false)
    (h2 : (determineCriticalMode de cr ffc).1 = false) :
    d20Roll parts e adv dis ffd chat none = RollOutcome.cancelled
    ∧ damageRoll parts de ac cr ffc chat none = RollOutcome.cancelled
    ∧ (∀ (r : D20RollState) (b : Bool),
        (RollOutcome.cancelled : RollOutcome D20RollState) ≠ RollOutcome.evaluated r b)
    ∧ (∀ (r : DamageRollState) (b : Bool),
        (RollOutcome.cancelled : RollOutcome DamageRollState) ≠ RollOutcome.evaluated r b) := by
  refine ⟨?_, ?_, fun r b => by simp, fun r b => by simp⟩
  · simp [d20Roll, h1]
  · simp [damageRoll, h2]

/-- C6 witness: a concrete non-fast-forwarded d20 roll and damage roll
whose dialogs are dismissed both yield the cancelled outcome. -/
theorem c6_cancelled_roll_witness :
    d20Roll [] none false false (some false) true none = RollOutcome.cancelled
    ∧ damageRoll [] none true false (some false) true none = RollOutcome.cancelled
    ∧ (∀ (r : D20RollState) (b : Bool),
        (RollOutcome.cancelled : RollOutcome D20RollState) ≠ RollOutcome.evaluated r b)
    ∧ (∀ (r : DamageRollState) (b : Bool),
        (RollOutcome.cancelled : RollOutcome DamageRollState) ≠ RollOutcome.evaluated r b) :=
  c6_cancelled_roll [] none false false (some false) true none true false (some false)
    rfl rfl

/-- C7 counterexample: the numeric override `average = 0` is falsy, so
the `if ( config.average )` guard skips the whole average block and no
average is displayed — refuting the claim that every numeric `average`
value is displayed verbatim. -/
theorem c7_counterexample :
    enrichDamageAverage ⟨2, 6⟩ (.num 0) = (none, 0)
    ∧ ¬ (enrichDamageAverage ⟨2, 6⟩ (.num 0)).1 = some 0 := by
  exact ⟨rfl, by decide⟩

/-- C7 amended: with `average = true` and no numeric override, the
displayed average is `floor((minimum total + maximum total) / 2)` of the
formula — `7` for `2d6`, computed from two formula evaluations — and a
nonzero numeric `average` is displayed verbatim with no formula
evaluation at all; the numeric override `0` is falsy in the source's
truthiness guard, so it displays no average (and still performs no
evaluation). -/
theorem c7_amended (f : DiceFormula) (n : Int) (hn : n ≠ 0) :
    (enrichDamageAverage f .flag).1
        = some (((minimizedTotal f + maximizedTotal f) / 2 : Nat) : Int)
    ∧ enrichDamageAverage ⟨2, 6⟩ .flag = (some 7, 2)
    ∧ enrichDamageAverage f (.num n) = (some n, 0)
    ∧ enrichDamageAverage f (.num 0) = (none, 0) := by
  refine ⟨rfl, by decide, ?_, rfl⟩
  simp [enrichDamageAverage, hn]

/-- C7 amended, witness: the spec's `8d4` example with the manual
override `average = 666` displays `666` without evaluation, the `2d6`
flag case displays `7`, and the override `0` displays nothing. -/
theorem c7_amended_witness :
    (666 : Int) ≠ 0
    ∧ ((enrichDamageAverage ⟨8, 4⟩ .flag).1 = some 20
      ∧ enrichDamageAverage ⟨2, 6⟩ .flag = (some 7, 2)
      ∧ enrichDamageAverage ⟨8, 4⟩ (.num 666) = (some 666, 0)
      ∧ enrichDamageAverage ⟨8, 4⟩ (.num 0) = (none, 0)) :=
  ⟨by decide, c7_amended ⟨8, 4⟩ 666 (by decide)⟩

/-- C8: a check enrichment supplying a known skill key and no explicit
ability resolves the ability to the skill's configured default ability
from the skills table (`"dex"` for `"acr"`); an explicitly supplied
ability is kept and never overridden by the skill's default. -/
theorem c8_skill_default_ability
    (lookup : EnrichmentLookup) (g : String → Option String) (input : String)
    (s a : String) (sc : SkillEntry)
    (hs : lookup.skills.lookup s = some sc) (hk : sc.key = none)
    (hd : lookup.abilities.lookup sc.ability = some ⟨none⟩)
    (ha : lookup.abilities.lookup a = some ⟨none⟩) :
    enrichCheck lookup g input none (some s) none
      = ⟨.rollLink "skill" (some sc.ability) (some s) none, 0⟩
    ∧ enrichCheck lookup g input (some a) (some s) none
      = ⟨.rollLink "skill" (some a) (some s) none, 0⟩
    ∧ enrichCheck dnd5eLookup g input none (some "acr") none
      = ⟨.rollLink "skill" (some "dex") (some "acr") none, 0⟩ := by
  refine ⟨?_, ?_, by rfl⟩ <;> simp [enrichCheck, hs, hk, hd, ha]

/-- C8 witness: the spec's example on the concrete table — skill key
`"acr"` with no explicit ability resolves to `"dex"`, while an explicit
`"str"` is kept. -/
theorem c8_skill_default_ability_witness :
    dnd5eLookup.skills.lookup "acr" = some ⟨"dex", none⟩
    ∧ (enrichCheck dnd5eLookup (fun _ => none) "[[/check skill=acr]]" none (some "acr") none
        = ⟨.rollLink "skill" (some "dex") (some "acr") none, 0⟩
      ∧ enrichCheck dnd5eLookup (fun _ => none) "[[/check skill=acr]]" (some "str") (some "acr") none
        = ⟨.rollLink "skill" (some "str") (some "acr") none, 0⟩
      ∧ enrichCheck dnd5eLookup (fun _ => none) "[[/check skill=acr]]" none (some "acr") none
        = ⟨.rollLink "skill" (some "dex") (some "acr") none, 0⟩) :=
  ⟨rfl, c8_skill_default_ability dnd5eLookup (fun _ => none) "[[/check skill=acr]]"
    "acr" "str" ⟨"dex", none⟩ rfl rfl rfl rfl⟩

/-- C9: a check or save enrichment referencing a skill, tool, or ability
key absent from the lookup tables logs a warning (at least one
`console.warn`) and returns the original matched input unchanged; it
produces no roll link (and, being a total function, does not throw). -/
theorem c9_unknown_key_unchanged
    (lookup : EnrichmentLookup) (g : String → Option String) (input : String)
    (s a t : String) (ab : Option String)
    (hs : lookup.skills.lookup s = none)
    (ha : lookup.abilities.lookup a = none)
    (ht : lookup.tools.lookup t = none) :
    (enrichCheck lookup g input ab (some s) none).result = .unchanged input
    ∧ 1 ≤ (enrichCheck lookup g input ab (some s) none).warnings
    ∧ enrichCheck lookup g input (some a) none none = ⟨.unchanged input, 1⟩
    ∧ (enrichCheck lookup g input ab none (some t)).result = .unchanged input
    ∧ 1 ≤ (enrichCheck lookup g input ab none (some t)).warnings
    ∧ enrichSave lookup input (some a) = ⟨.unchanged input, 1⟩ := by
  refine ⟨?_, ?_, ?_, ?_, ?_, ?_⟩ <;>
    simp [enrichCheck, enrichSave, hs, ha, ht]

/-- C9 witness: the unknown key `"xyz"` against the concrete table —
every enrichment returns its original input with a warning. -/
theorem c9_unknown_key_unchanged_witness :
    dnd5eLookup.skills.lookup "xyz" = none
    ∧ ((enrichCheck dnd5eLookup (fun _ => none) "[[/check skill=xyz]]" none (some "xyz") none).result
        = .unchanged "[[/check skill=xyz]]"
      ∧ 1 ≤ (enrichCheck dnd5eLookup (fun _ => none) "[[/check skill=xyz]]" none (some "xyz") none).warnings
      ∧ enrichCheck dnd5eLookup (fun _ => none) "[[/check skill=xyz]]" (some "xyz") none none
        = ⟨.unchanged "[[/check skill=xyz]]", 1⟩
      ∧ (enrichCheck dnd5eLookup (fun _ => none) "[[/check skill=xyz]]" none none (some "xyz")).result
        = .unchanged "[[/check skill=xyz]]"
      ∧ 1 ≤ (enrichCheck dnd5eLookup (fun _ => none) "[[/check skill=xyz]]" none none (some "xyz")).warnings
      ∧ enrichSave dnd5eLookup "[[/check skill=xyz]]" (some "xyz")
        = ⟨.unchanged "[[/check skill=xyz]]", 1⟩) :=
  ⟨rfl, c9_unknown_key_unchanged dnd5eLookup (fun _ => none) "[[/check skill=xyz]]"
    "xyz" "xyz" "xyz" none rfl rfl rfl⟩

/-- C10: for every `ProficiencyCycleElement` whose current value is in
the valid value list for its type, `step(true)` followed by
`step(false)` restores the original value, and each single step lands
inside the valid value list (wrapping cyclically at the ends). -/
theorem c10_step_cycle (t : ProfType) (v : ℚ) (hv : v ∈ validValues t) :
    step t (step t v true) false = v
    ∧ step t v true ∈ validValues t
    ∧ step t v false ∈ validValues t := by
  cases t with
  | ability =>
    simp only [validValues, List.mem_cons, List.not_mem_nil, or_false] at hv
    rcases hv with rfl | rfl <;> refine ⟨?_, ?_, ?_⟩ <;>
      norm_num [step, validValues, List.indexOf, List.findIdx_cons, cond_eq_if,
        beq_iff_eq, List.getD_cons_succ, List.getD_cons_zero]
  | skill =>
    simp only [validValues, List.mem_cons, List.not_mem_nil, or_false] at hv
    rcases hv with rfl | rfl | rfl | rfl <;> refine ⟨?_, ?_, ?_⟩ <;>
      norm_num [step, validValues, List.indexOf, List.findIdx_cons, cond_eq_if,
        beq_iff_eq, List.getD_cons_succ, List.getD_cons_zero]

/-- C10 witness: stepping the half-proficiency skill value `0.5` up and
back down returns to `0.5`, staying in the valid list. -/
theorem c10_step_cycle_witness :
    (1/2 : ℚ) ∈ validValues .skill
    ∧ (step .skill (step .skill (1/2) true) false = 1/2
      ∧ step .skill (1/2) true ∈ validValues .skill
      ∧ step .skill (1/2) false ∈ validValues .skill) :=
  ⟨by norm_num [validValues], c10_step_cycle .skill (1/2) (by norm_num [validValues])⟩

end Dnd5e
